import Mathlib

/-!
Shallow embedding of `src/services/orchestrator.js` (class
`WorkflowOrchestrator`): the three workflow procedures
`scheduleCodeReview`, `createProjectKickoff` and `handleIncidentResponse`
are modelled as pure functions of

  * the orchestrator's fields (collaborator handles, config, flag),
  * one outcome per collaborator call site (each call either resolves with
    a result record or rejects with a JS value),
  * a clock giving the value returned by the k-th `Date.now()` /
    `new Date()` reading of the invocation,
  * the request object, the user context and the correlation id.

Each procedure returns the JS outcome — `Except Unit Envelope`, where
`.error ()` models an exception escaping the procedure to its caller and
`.ok env` models a returned result envelope — together with the final run
state: the tick counter, the ordered trace of collaborator calls issued,
and the orchestrator fields.  `logger.*` calls are elided (they are
side-effect-only and assumed total), and the Slack `blocks` payloads are
elided from the message specs (they are a parallel rich rendering of the
recorded `text` field, inspected by no property below).
-/

namespace WG

/-- Model of a JavaScript promise-rejection reason, as consumed by the
workflow catch blocks (which only ever read `error.message`). -/
inductive JsError where
  /-- rejection with `undefined` or `null`: any property access throws. -/
  | nullish
  /-- rejection with an object whose `message` property is the given
  string, or is `undefined` when `none` (this also covers primitive
  reasons such as strings, whose property access yields `undefined`). -/
  | obj (message : Option String)
deriving DecidableEq, Repr

/-- Reading `error.message`: throws when the reason is `undefined`/`null`,
otherwise yields the (possibly `undefined`) property value. -/
def jsMessage : JsError → Except Unit (Option String)
  | .nullish => .error ()
  | .obj m => .ok m

/-- JS template interpolation of a possibly-`undefined` string value. -/
def jsShow : Option String → String
  | some s => s
  | none => "undefined"

/-- JS `x || d` for string values (`undefined`, `null`, `""` are falsy). -/
def jsOrStr : Option String → String → String
  | some s, d => if s = "" then d else s
  | none, d => d

/-- JS `x || d` for numbers (`undefined`, `null`, `0` are falsy). -/
def jsOrNat : Option Nat → Nat → Nat
  | some n, d => if n = 0 then d else n
  | none, d => d

/-- JS `x || []` for a possibly-`undefined` array. -/
def jsOrList : Option (List α) → List α
  | some xs => xs
  | none => []

/-- `Array.prototype.filter(Boolean)` over possibly-`undefined` strings:
drops `undefined`/`null` and the empty string (the falsy string values). -/
def filterTruthy (xs : List (Option String)) : List String :=
  xs.filterMap fun x => match x with
    | some s => if s = "" then none else some s
    | none => none

/-- `email.split("@")[0]` — the local part of an email address (JS `split`
always returns a non-empty array, so index 0 exists). -/
def localPart (email : String) : String :=
  (email.splitOn "@").headD ""

/-- Membership in the slug alphabet `[a-z0-9-]`. -/
def slugChar (c : Char) : Bool :=
  ('a' ≤ c && c ≤ 'z') || ('0' ≤ c && c ≤ '9') || c == '-'

/-- JS `String.prototype.toLowerCase`, restricted to its ASCII action
(characters the slug step keeps are ASCII; every non-ASCII character is
replaced by `-` by the slug step regardless of case). -/
def jsToLowerCase (s : String) : String :=
  (s.toList.map Char.toLower).asString

/-- JS `.replace(/[^a-z0-9-]/g, "-")`. -/
def replaceNonSlug (s : String) : String :=
  (s.toList.map fun c => if slugChar c then c else '-').asString

/-- `s.toLowerCase().replace(/[^a-z0-9-]/g, "-")` — the lowercase/replace
slug rule shared by the code-review channel name (orchestrator.js:84) and
the kickoff repository name (orchestrator.js:310). -/
def slugify (s : String) : String :=
  replaceNonSlug (jsToLowerCase s)

/-- JS `s.substring(0, n)` (truncation to the first `n` characters). -/
def jsSubstring0 (n : Nat) (s : String) : String :=
  (s.toList.take n).asString

/-- The code-review channel name (orchestrator.js:84):
the title is slugified, prefixed with the raw `pr-<number>-`, and the
whole string is truncated to 80 characters. -/
def channelSlug (prNumber : Nat) (title : String) : String :=
  jsSubstring0 80 ("pr-" ++ Nat.repr prNumber ++ "-" ++ slugify title)

/-- JS `s.slice(-n)`: the last `n` characters (whole string if shorter). -/
def jsSliceLast (n : Nat) (s : String) : String :=
  (s.toList.drop (s.toList.length - n)).asString

/-- JS `s.slice(0, n)`. -/
def jsSlice0 (n : Nat) (s : String) : String :=
  (s.toList.take n).asString

/-- Abstraction of JS `Date.prototype.toISOString`: only the timestamp is
kept (the concrete ISO-8601 rendering is inspected by no property). -/
def toISOString (t : Int) : String :=
  toString t

/-- A person record as returned inside pull-request details; the `email`
field may be absent (`undefined`). -/
structure Person where
  name : String
  email : Option String
deriving DecidableEq, Repr

structure PRUrls where
  html : String
deriving DecidableEq, Repr

structure PRStats where
  changedFiles : Int
  additions : Int
  deletions : Int
deriving DecidableEq, Repr

/-- Result of `github.getPullRequest` (the fields the workflows read). -/
structure PRDetails where
  title : String
  author : Person
  requestedReviewers : List Person
  urls : PRUrls
  stats : PRStats
deriving DecidableEq, Repr

/-- Result of `github.getIssue`. -/
structure IssueDetails where
  html_url : String
deriving DecidableEq, Repr

/-- Result of `calendar.findOptimalTime`; `start`/`«end»` are epoch
milliseconds. -/
structure MeetingTime where
  start : Int
  «end» : Int
  formatted : String
deriving DecidableEq, Repr

/-- Result of `slack.createReviewChannel`. -/
structure Channel where
  id : String
  name : String
  webUrl : String
deriving DecidableEq, Repr

/-- Result of `calendar.createMeeting`.  `startDateTime` models the
source's `meeting.start.dateTime`. -/
structure Meeting where
  id : String
  hangoutLink : Option String
  htmlLink : String
  summary : String
  startDateTime : String
deriving DecidableEq, Repr

/-- Result of `notion.createDocument`. -/
structure NotionPage where
  id : String
  url : String
deriving DecidableEq, Repr

/-- Result of `notion.createProjectPage`. -/
structure NotionProject where
  projectPageId : String
  projectPageUrl : String
deriving DecidableEq, Repr

/-- Result of `github.createIssue`. -/
structure CreatedIssue where
  number : Nat
  html_url : String
deriving DecidableEq, Repr

/-- Result of `github.createRepository`. -/
structure CreatedRepo where
  name : String
  html_url : String
deriving DecidableEq, Repr

/-- Request of `scheduleCodeReview`.  `additional_attendees` may be
absent, and its entries may be `undefined`; `duration` may be absent. -/
structure CodeReviewArgs where
  repository : String
  pr_number : Nat
  issue_number : Nat
  additional_attendees : Option (List (Option String))
  duration : Option Nat
deriving DecidableEq, Repr

/-- Request of `createProjectKickoff`. -/
structure KickoffArgs where
  project_name : String
  team_members : List String
  deadline : Option String
  description : String
deriving DecidableEq, Repr

/-- Request of `handleIncidentResponse`. -/
structure IncidentArgs where
  repository : String
  title : String
  severity : String
  description : String
  responders : List String
  stakeholders : Option (List String)
deriving DecidableEq, Repr

/-- Per-invocation credentials: one token per collaborator platform. -/
structure UserContext where
  githubToken : String
  slackToken : String
  notionToken : String
  calendarToken : String
deriving DecidableEq, Repr

/-- The two configuration identifiers read from `process.env` at call
time; either may be absent. -/
structure ProcessEnv where
  NOTION_PROJECTS_DB_ID : Option String
  NOTION_INCIDENTS_DB_ID : Option String
deriving DecidableEq, Repr

/-- The orchestrator's own fields (constructor, orchestrator.js:10-21).
The collaborator instances are opaque handles here — their wire-level
clients live outside `src/` and are specified only through the call
outcomes fed to each workflow. -/
structure Orchestrator where
  github : Nat
  slack : Nat
  notion : Nat
  calendar : Nat
  automation : Nat
  config : List (String × String)
  isInitialized : Bool
deriving DecidableEq, Repr

/-- The `context` block of the code-review channel spec
(orchestrator.js:90-105); `links` are (title, url) pairs. -/
structure ChannelContext where
  purpose : String
  prNumber : Nat
  issueNumber : Nat
  repository : String
  links : List (String × String)
deriving DecidableEq, Repr

/-- Argument of `slack.createReviewChannel`.  `isPrivate` models the
source field `private`. -/
structure ChannelSpec where
  name : String
  type : Option String
  topic : String
  purpose : String
  isPrivate : Bool
  members : List String
  context : Option ChannelContext
deriving DecidableEq, Repr

/-- Search-window argument of `calendar.findOptimalTime`. -/
structure WindowSpec where
  duration : Nat
  timeMin : Int
  timeMax : Int
  workStart : Nat
  workEnd : Nat
  bufferMinutes : Option Nat
deriving DecidableEq, Repr

/-- Argument of `calendar.createMeeting`; `conferenceRequestId` models
`conferenceData.createRequest.requestId` when present. -/
structure MeetingSpec where
  title : String
  description : String
  startTime : Int
  endTime : Int
  attendees : List String
  location : String
  conferenceRequestId : Option String
deriving DecidableEq, Repr

/-- Argument of `notion.createDocument`. -/
structure DocSpec where
  title : String
  type : String
  content : String
  owners : List String
deriving DecidableEq, Repr

/-- Argument of `notion.createProjectPage`. -/
structure ProjectSpec where
  name : String
  databaseId : Option String
  teamMembers : List String
  deadline : Option String
  description : String
deriving DecidableEq, Repr

/-- Argument of `github.createIssue`. -/
structure IssueSpec where
  title : String
  body : String
  labels : List String
  assignees : List String
deriving DecidableEq, Repr

/-- Argument of `github.createRepository`; `isPrivate` models the source
field `private`. -/
structure RepoSpec where
  name : String
  description : String
  isPrivate : Bool
  team : List String
deriving DecidableEq, Repr

/-- Argument of `slack.sendMessage` (the `text` field; `blocks` elided). -/
structure MessageSpec where
  text : String
deriving DecidableEq, Repr

/-- One collaborator call issued by a workflow: the receiver handle, the
payload, and the trailing (token, correlation id) parameters. -/
inductive Call where
  | getPullRequest (github : Nat) (repo : String) (number : Nat)
      (token : String) (reqId : String)
  | getIssue (github : Nat) (repo : String) (number : Nat)
      (token : String) (reqId : String)
  | createIssue (github : Nat) (repo : String) (spec : IssueSpec)
      (token : String) (reqId : String)
  | createRepository (github : Nat) (spec : RepoSpec)
      (token : String) (reqId : String)
  | createReviewChannel (slack : Nat) (spec : ChannelSpec)
      (token : String) (reqId : String)
  | sendMessage (slack : Nat) (channelId : String) (msg : MessageSpec)
      (token : String) (reqId : String)
  | createDocument (notion : Nat) (dbId : Option String) (spec : DocSpec)
      (token : String) (reqId : String)
  | createProjectPage (notion : Nat) (spec : ProjectSpec)
      (token : String) (reqId : String)
  | findOptimalTime (calendar : Nat) (attendees : List String)
      (token : String) (reqId : String) (window : WindowSpec)
  | createMeeting (calendar : Nat) (spec : MeetingSpec)
      (token : String) (reqId : String)
deriving DecidableEq, Repr

/-- The nested `meeting` object of the code-review success details. -/
structure MeetingDetails where
  time : String
  url : String
  attendees : List String
deriving DecidableEq, Repr

/-- The nested `notion` object of the code-review success details. -/
structure NotionDetails where
  title : String
  url : String
deriving DecidableEq, Repr

/-- `details` of a successful `scheduleCodeReview`
(orchestrator.js:256-273). -/
structure CodeReviewDetails where
  repository : String
  pr_number : Nat
  issue_number : Nat
  slack_channel : String
  slack_url : String
  github_pr : String
  github_issue : String
  meeting : MeetingDetails
  notion : NotionDetails
deriving DecidableEq, Repr

/-- `details` of a successful `createProjectKickoff`
(orchestrator.js:428-446), flattened with prefixed names. -/
structure KickoffDetails where
  notionPageId : String
  notionUrl : String
  githubName : String
  githubUrl : String
  slackChannel : String
  slackUrl : String
  meetingId : String
  meetingTime : String
  meetingUrl : String
deriving DecidableEq, Repr

/-- `details` of a successful `handleIncidentResponse`
(orchestrator.js:641-654), flattened with prefixed names. -/
structure IncidentDetails where
  notionDocumentId : String
  notionUrl : String
  githubIssueNumber : Nat
  githubIssueUrl : String
  slackChannel : String
  slackUrl : String
deriving DecidableEq, Repr

/-- The workflow-specific shapes of a success envelope's `details`. -/
inductive Details where
  | codeReview (d : CodeReviewDetails)
  | kickoff (d : KickoffDetails)
  | incident (d : IncidentDetails)
deriving DecidableEq, Repr

/-- The uniform result envelope.  `executionTime` is kept in milliseconds
(the source renders it as the string `"<n>ms"`); `details` is absent on
the failure path. -/
structure Envelope where
  success : Bool
  message : String
  executionTime : Int
  details : Option Details
deriving DecidableEq, Repr

/-- Run state threaded through one invocation: the index of the next
`Date.now()` reading, the ordered trace of collaborator calls issued so
far, and the orchestrator fields (the receiver `this`). -/
structure RunState where
  tick : Nat
  trace : List Call
  orch : Orchestrator
deriving DecidableEq, Repr

/-- Consume one `Date.now()` / `new Date()` reading. -/
def RunState.now (clock : Nat → Int) (s : RunState) : Int × RunState :=
  (clock s.tick, { s with tick := s.tick + 1 })

/-- Record one collaborator call. -/
def RunState.call (s : RunState) (c : Call) : RunState :=
  { s with trace := s.trace ++ [c] }

/-- Catch block of `scheduleCodeReview` (orchestrator.js:276-287):
`logger.error` reads `error.message` first (a throwing read escapes the
procedure); the return object then computes `Date.now() - startTime`. -/
def crCatch (clock : Nat → Int) (startTime : Int) (e : JsError)
    (s : RunState) : Except Unit Envelope × RunState :=
  match jsMessage e with
  | .error _ => (.error (), s)
  | .ok m =>
    let (tEnd, s) := s.now clock
    (.ok { success := false
           message := "Failed to schedule code review: " ++ jsShow m
           executionTime := tEnd - startTime
           details := none }, s)

/-- Catch block of `createProjectKickoff` (orchestrator.js:449-463):
`Date.now() - startTime` is computed first (line 450), then
`logger.error` reads `error.message` (line 454, a throwing read escapes
the procedure). -/
def pkCatch (clock : Nat → Int) (startTime : Int) (e : JsError)
    (s : RunState) : Except Unit Envelope × RunState :=
  let (tEnd, s) := s.now clock
  match jsMessage e with
  | .error _ => (.error (), s)
  | .ok m =>
    (.ok { success := false
           message := "Failed to create project: " ++ jsShow m
           executionTime := tEnd - startTime
           details := none }, s)

/-- Catch block of `handleIncidentResponse` (orchestrator.js:657-670):
same shape as the kickoff catch (elapsed first, then the message read). -/
def irCatch (clock : Nat → Int) (startTime : Int) (e : JsError)
    (s : RunState) : Except Unit Envelope × RunState :=
  let (tEnd, s) := s.now clock
  match jsMessage e with
  | .error _ => (.error (), s)
  | .ok m =>
    (.ok { success := false
           message := "Failed to initiate incident response: " ++ jsShow m
           executionTime := tEnd - startTime
           details := none }, s)

/-- Meeting description template of `scheduleCodeReview`
(orchestrator.js:117-125). -/
def crMeetingDescription (args : CodeReviewArgs) (pr : PRDetails)
    (issue : IssueDetails) (channel : Channel) : String :=
  "Code review for PR #" ++ Nat.repr args.pr_number ++ " (Fixes #" ++
    Nat.repr args.issue_number ++ ")\n\n" ++
  "Pull Request: " ++ pr.urls.html ++ "\n" ++
  "Issue: " ++ issue.html_url ++ "\n" ++
  "Slack Channel: " ++ channel.webUrl ++ "\n\n" ++
  "Changes Summary:\n" ++
  "- Files changed: " ++ toString pr.stats.changedFiles ++ "\n" ++
  "- Additions: +" ++ toString pr.stats.additions ++ "\n" ++
  "- Deletions: -" ++ toString pr.stats.deletions ++ "\n\n" ++
  "Please review the changes before the meeting."

/-- Notion meeting-notes template of `scheduleCodeReview`
(orchestrator.js:141-164). -/
def crNotionContent (args : CodeReviewArgs) (pr : PRDetails)
    (issue : IssueDetails) (channel : Channel) : String :=
  "# Code Review Meeting Notes\n\n" ++
  "## Pull Request Details\n" ++
  "- PR: #" ++ Nat.repr args.pr_number ++ " - " ++ pr.title ++ "\n" ++
  "- Author: " ++ pr.author.name ++ "\n" ++
  "- Reviewers: " ++
    String.intercalate ", " (pr.requestedReviewers.map Person.name) ++ "\n" ++
  "- Issue: #" ++ Nat.repr args.issue_number ++ "\n\n" ++
  "## Links\n" ++
  "- [Pull Request](" ++ pr.urls.html ++ ")\n" ++
  "- [Issue](" ++ issue.html_url ++ ")\n" ++
  "- [Slack Channel](" ++ channel.webUrl ++ ")\n" ++
  "- [Meeting Recording](TBD)\n\n" ++
  "## Agenda\n" ++
  "1. PR Overview by Author\n" ++
  "2. Technical Implementation Review\n" ++
  "3. Testing Strategy Discussion\n" ++
  "4. Action Items\n\n" ++
  "## Notes\n" ++
  "(To be filled during the meeting)\n\n" ++
  "## Action Items\n" ++
  "- [ ] Review comments addressed\n" ++
  "- [ ] Tests updated/added\n" ++
  "- [ ] Documentation updated\n\n" ++
  "## Next Steps\n" ++
  "(To be determined during the meeting)"

/-- Slack notification text of `scheduleCodeReview`
(orchestrator.js:175-180). -/
def crSlackText (args : CodeReviewArgs) (pr : PRDetails)
    (mt : MeetingTime) (m : Meeting) : String :=
  "🔍 *Code Review Scheduled: " ++ pr.title ++ "*\n\n" ++
  "*Pull Request:* #" ++ Nat.repr args.pr_number ++ "\n" ++
  "*Fixes Issue:* #" ++ Nat.repr args.issue_number ++ "\n" ++
  "*Author:* " ++ pr.author.name ++ "\n\n" ++
  "*Meeting Scheduled:* " ++ mt.formatted ++ "\n" ++
  "*Join:* " ++ jsOrStr m.hangoutLink m.htmlLink

/-- Slack welcome text of `createProjectKickoff`
(orchestrator.js:359-364). -/
def pkWelcomeText (args : KickoffArgs) (np : NotionProject)
    (repo : CreatedRepo) (m : Meeting) : String :=
  "🚀 *Project " ++ args.project_name ++ " has been created!*\n\n" ++
  "*Resources:*\n" ++
  "• Notion Workspace: " ++ np.projectPageUrl ++ "\n" ++
  "• GitHub Repository: " ++ repo.html_url ++ "\n" ++
  "• Kickoff Meeting: " ++ m.htmlLink ++ "\n\n" ++
  "Please review the project documentation in Notion and we\x27ll discuss " ++
  "everything in detail during the kickoff meeting."

/-- Slack alert text of `handleIncidentResponse`
(orchestrator.js:527-533). -/
def irAlertText (args : IncidentArgs) (doc : NotionPage)
    (issue : CreatedIssue) : String :=
  "🚨 *New Incident Reported*\n\n" ++
  "*Title:* " ++ args.title ++ "\n" ++
  "*Severity:* " ++ args.severity ++ "\n\n" ++
  "*Description:*\n" ++ args.description ++ "\n\n" ++
  "*Resources:*\n" ++
  "• Incident Doc: " ++ doc.url ++ "\n" ++
  "• GitHub Issue: " ++ issue.html_url

/-- `scheduleCodeReview` (orchestrator.js:35-288).  `rPR` … `rMsg` are the
outcomes of the seven collaborator call sites, in source order; the two
`Promise.all` fetches are both issued, and a rejection of either aborts
the workflow (earlier array position first). -/
def scheduleCodeReview (o : Orchestrator) (penv : ProcessEnv)
    (rPR : Except JsError PRDetails) (rIssue : Except JsError IssueDetails)
    (rFind : Except JsError MeetingTime) (rChannel : Except JsError Channel)
    (rMeeting : Except JsError Meeting) (rDoc : Except JsError NotionPage)
    (rMsg : Except JsError Unit) (clock : Nat → Int)
    (args : CodeReviewArgs) (uc : UserContext) (requestId : String) :
    Except Unit Envelope × RunState :=
  let s := RunState.mk 0 [] o
  let (startTime, s) := s.now clock
  let s := s.call (.getPullRequest o.github args.repository args.pr_number
    uc.githubToken requestId)
  let s := s.call (.getIssue o.github args.repository args.issue_number
    uc.githubToken requestId)
  match rPR, rIssue with
  | .error e, _ => crCatch clock startTime e s
  | .ok _, .error e => crCatch clock startTime e s
  | .ok prDetails, .ok issueDetails =>
    let attendees := filterTruthy
      (prDetails.requestedReviewers.map Person.email
        ++ [prDetails.author.email]
        ++ jsOrList args.additional_attendees)
    let (tMin, s) := s.now clock
    let (tMax, s) := s.now clock
    let s := s.call (.findOptimalTime o.calendar attendees uc.calendarToken
      requestId
      { duration := jsOrNat args.duration 30
        timeMin := tMin + 30 * 60 * 1000
        timeMax := tMax + 24 * 60 * 60 * 1000
        workStart := 9
        workEnd := 17
        bufferMinutes := some 15 })
    match rFind with
    | .error e => crCatch clock startTime e s
    | .ok meetingTime =>
      let channelData : ChannelSpec :=
        { name := channelSlug args.pr_number prDetails.title
          type := some "review"
          topic := "Code review for PR #" ++ Nat.repr args.pr_number ++
            ": " ++ prDetails.title
          purpose := "Review: " ++ prDetails.title ++ " (Fixes #" ++
            Nat.repr args.issue_number ++ ")"
          isPrivate := false
          members := attendees.map localPart
          context := some
            { purpose := "Code review for " ++ args.repository ++
                " PR #" ++ Nat.repr args.pr_number
              prNumber := args.pr_number
              issueNumber := args.issue_number
              repository := args.repository
              links :=
                [("Pull Request #" ++ Nat.repr args.pr_number,
                    prDetails.urls.html),
                 ("Issue #" ++ Nat.repr args.issue_number,
                    issueDetails.html_url)] } }
      let s := s.call (.createReviewChannel o.slack channelData
        uc.slackToken requestId)
      match rChannel with
      | .error e => crCatch clock startTime e s
      | .ok channel =>
        let s := s.call (.createMeeting o.calendar
          { title := "Code Review: " ++ prDetails.title
            description :=
              crMeetingDescription args prDetails issueDetails channel
            startTime := meetingTime.start
            endTime := meetingTime.«end»
            attendees := attendees
            location := channel.webUrl
            conferenceRequestId :=
              some ("pr-" ++ Nat.repr args.pr_number) }
          uc.calendarToken requestId)
        match rMeeting with
        | .error e => crCatch clock startTime e s
        | .ok meeting =>
          let s := s.call (.createDocument o.notion
            penv.NOTION_PROJECTS_DB_ID
            { title := "Code Review: " ++ prDetails.title
              type := "Meeting Notes"
              content := crNotionContent args prDetails issueDetails channel
              owners := attendees }
            uc.notionToken requestId)
          match rDoc with
          | .error e => crCatch clock startTime e s
          | .ok notionPage =>
            let s := s.call (.sendMessage o.slack channel.id
              { text := crSlackText args prDetails meetingTime meeting }
              uc.slackToken requestId)
            match rMsg with
            | .error e => crCatch clock startTime e s
            | .ok _ =>
              let (tEnd, s) := s.now clock
              (.ok { success := true
                     message := "Code review scheduled for PR #" ++
                       Nat.repr args.pr_number
                     executionTime := tEnd - startTime
                     details := some (.codeReview
                       { repository := args.repository
                         pr_number := args.pr_number
                         issue_number := args.issue_number
                         slack_channel := "#" ++ channel.name
                         slack_url := channel.webUrl
                         github_pr := prDetails.urls.html
                         github_issue := issueDetails.html_url
                         meeting :=
                           { time := meetingTime.formatted
                             url := jsOrStr meeting.hangoutLink
                               meeting.htmlLink
                             attendees := attendees }
                         notion :=
                           { title := "Code Review: " ++ prDetails.title
                             url := notionPage.url } }) }, s)

/-- `createProjectKickoff` (orchestrator.js:290-464).  `rPage` … `rMsg`
are the outcomes of the six collaborator call sites, in source order. -/
def createProjectKickoff (o : Orchestrator) (penv : ProcessEnv)
    (rPage : Except JsError NotionProject)
    (rRepo : Except JsError CreatedRepo)
    (rChannel : Except JsError Channel)
    (rFind : Except JsError MeetingTime)
    (rMeeting : Except JsError Meeting)
    (rMsg : Except JsError Unit) (clock : Nat → Int)
    (args : KickoffArgs) (uc : UserContext) (requestId : String) :
    Except Unit Envelope × RunState :=
  let s := RunState.mk 0 [] o
  let (startTime, s) := s.now clock
  let s := s.call (.createProjectPage o.notion
    { name := args.project_name
      databaseId := penv.NOTION_PROJECTS_DB_ID
      teamMembers := args.team_members
      deadline := args.deadline
      description := args.description }
    uc.notionToken requestId)
  match rPage with
  | .error e => pkCatch clock startTime e s
  | .ok notionProject =>
    -- note: the repository name is NOT truncated to 80 characters
    let repoName := slugify args.project_name
    let s := s.call (.createRepository o.github
      { name := repoName
        description := args.description
        isPrivate := true
        team := args.team_members }
      uc.githubToken requestId)
    match rRepo with
    | .error e => pkCatch clock startTime e s
    | .ok repository =>
      let s := s.call (.createReviewChannel o.slack
        { name := "proj-" ++ repoName
          type := none
          topic := args.project_name ++ " - Project Discussion"
          purpose := args.description
          isPrivate := false
          members := args.team_members
          context := none }
        uc.slackToken requestId)
      match rChannel with
      | .error e => pkCatch clock startTime e s
      | .ok channel =>
        let (tMin, s) := s.now clock
        let (tMax, s) := s.now clock
        let s := s.call (.findOptimalTime o.calendar args.team_members
          uc.calendarToken requestId
          { duration := 60
            timeMin := tMin
            timeMax := tMax + 2 * 24 * 60 * 60 * 1000
            workStart := 9
            workEnd := 17
            bufferMinutes := none })
        match rFind with
        | .error e => pkCatch clock startTime e s
        | .ok kickoffTime =>
          let s := s.call (.createMeeting o.calendar
            { title := args.project_name ++ " - Project Kickoff"
              description := "Project kickoff meeting for " ++
                args.project_name ++ "\n\nNotion: " ++
                notionProject.projectPageUrl ++ "\nGitHub: " ++
                repository.html_url ++ "\nSlack: " ++ channel.webUrl
              startTime := kickoffTime.start
              endTime := kickoffTime.«end»
              attendees := args.team_members
              location := channel.webUrl
              conferenceRequestId := none }
            uc.calendarToken requestId)
          match rMeeting with
          | .error e => pkCatch clock startTime e s
          | .ok meeting =>
            let s := s.call (.sendMessage o.slack channel.id
              { text := pkWelcomeText args notionProject repository meeting }
              uc.slackToken requestId)
            match rMsg with
            | .error e => pkCatch clock startTime e s
            | .ok _ =>
              let (tEnd, s) := s.now clock
              (.ok { success := true
                     message := "Project " ++ args.project_name ++
                       " created successfully"
                     executionTime := tEnd - startTime
                     details := some (.kickoff
                       { notionPageId := notionProject.projectPageId
                         notionUrl := notionProject.projectPageUrl
                         githubName := repository.name
                         githubUrl := repository.html_url
                         slackChannel := channel.name
                         slackUrl := channel.webUrl
                         meetingId := meeting.id
                         meetingTime := meeting.startDateTime
                         meetingUrl := meeting.htmlLink }) }, s)

/-- Success return of `handleIncidentResponse` (orchestrator.js:627-655),
shared by the escalated and non-escalated paths. -/
def irSuccess (clock : Nat → Int) (startTime : Int) (args : IncidentArgs)
    (notionIncident : NotionPage) (issue : CreatedIssue)
    (channel : Channel) (s : RunState) :
    Except Unit Envelope × RunState :=
  let (tEnd, s) := s.now clock
  (.ok { success := true
         message := "Incident response initiated: " ++ args.title
         executionTime := tEnd - startTime
         details := some (.incident
           { notionDocumentId := notionIncident.id
             notionUrl := notionIncident.url
             githubIssueNumber := issue.number
             githubIssueUrl := issue.html_url
             slackChannel := channel.name
             slackUrl := channel.webUrl }) }, s)

/-- `handleIncidentResponse` (orchestrator.js:466-671).  `rDoc` … `rMsg2`
are the outcomes of the (up to) six collaborator call sites in source
order; `rMeeting`/`rMsg2` are consulted only on the escalation branch. -/
def handleIncidentResponse (o : Orchestrator) (penv : ProcessEnv)
    (rDoc : Except JsError NotionPage)
    (rIssue : Except JsError CreatedIssue)
    (rChannel : Except JsError Channel)
    (rMsg1 : Except JsError Unit)
    (rMeeting : Except JsError Meeting)
    (rMsg2 : Except JsError Unit) (clock : Nat → Int)
    (args : IncidentArgs) (uc : UserContext) (requestId : String) :
    Except Unit Envelope × RunState :=
  let s := RunState.mk 0 [] o
  let (startTime, s) := s.now clock
  let s := s.call (.createDocument o.notion penv.NOTION_INCIDENTS_DB_ID
    { title := "Incident: " ++ args.title
      type := "Incident Report"
      content := args.description
      owners := args.responders }
    uc.notionToken requestId)
  match rDoc with
  | .error e => irCatch clock startTime e s
  | .ok notionIncident =>
    let (tIso, s) := s.now clock
    let s := s.call (.createIssue o.github args.repository
      { title := "[INCIDENT] " ++ args.title
        body := "## Incident Report\n\n" ++ args.description ++ "\n\n" ++
          "**Severity:** " ++ args.severity ++ "\n" ++
          "**Started:** " ++ toISOString tIso ++ "\n\n" ++
          "### Links\n" ++
          "- [Incident Doc](" ++ notionIncident.url ++ ")\n"
        labels := ["incident", "severity:" ++ args.severity]
        assignees := args.responders.map localPart }
      uc.githubToken requestId)
    match rIssue with
    | .error e => irCatch clock startTime e s
    | .ok issue =>
      let (tName, s) := s.now clock
      let s := s.call (.createReviewChannel o.slack
        { name := "incident-" ++ jsSliceLast 6 (toString tName)
          type := none
          topic := "🚨 Active Incident: " ++ args.title
          purpose := "Incident coordination - " ++
            jsSlice0 100 args.description ++ "..."
          isPrivate := true
          members := args.responders ++ jsOrList args.stakeholders
          context := none }
        uc.slackToken requestId)
      match rChannel with
      | .error e => irCatch clock startTime e s
      | .ok channel =>
        let s := s.call (.sendMessage o.slack channel.id
          { text := irAlertText args notionIncident issue }
          uc.slackToken requestId)
        match rMsg1 with
        | .error e => irCatch clock startTime e s
        | .ok _ =>
          if args.severity == "high" || args.severity == "critical" then
            let (tStart, s) := s.now clock
            let (tEnd30, s) := s.now clock
            let (tReq, s) := s.now clock
            let s := s.call (.createMeeting o.calendar
              { title := "🚨 Incident Response: " ++ args.title
                description :=
                  "Emergency response meeting for ongoing incident\n\n" ++
                  "Notion: " ++ notionIncident.url ++ "\nGitHub: " ++
                  issue.html_url ++ "\nSlack: " ++ channel.webUrl
                startTime := tStart
                endTime := tEnd30 + 30 * 60 * 1000
                attendees := args.responders
                location := channel.webUrl
                conferenceRequestId :=
                  some ("incident-" ++ toString tReq) }
              uc.calendarToken requestId)
            match rMeeting with
            | .error e => irCatch clock startTime e s
            | .ok meeting =>
              let s := s.call (.sendMessage o.slack channel.id
                { text := "🚪 *Emergency Response Meeting*\n\nJoin now: " ++
                    jsOrStr meeting.hangoutLink meeting.htmlLink }
                uc.slackToken requestId)
              match rMsg2 with
              | .error e => irCatch clock startTime e s
              | .ok _ =>
                irSuccess clock startTime args notionIncident issue channel s
          else
            irSuccess clock startTime args notionIncident issue channel s

/-- Trace query: the attendee list of a `findOptimalTime` call. -/
def Call.findAttendees? : Call → Option (List String)
  | .findOptimalTime _ attendees _ _ _ => some attendees
  | _ => none

/-- Trace query: the repository name of a `createRepository` call. -/
def Call.repoName? : Call → Option String
  | .createRepository _ spec _ _ => some spec.name
  | _ => none

/-- Trace query: the payload of a `createMeeting` call. -/
def Call.meetingSpec? : Call → Option MeetingSpec
  | .createMeeting _ spec _ _ => some spec
  | _ => none

def Call.isCreateMeeting : Call → Bool
  | .createMeeting _ _ _ _ => true
  | _ => false

def Call.isSendMessage : Call → Bool
  | .sendMessage _ _ _ _ _ => true
  | _ => false

def Call.isCreateReviewChannel : Call → Bool
  | .createReviewChannel _ _ _ _ => true
  | _ => false

/-- Does `hay` start with `needle`? -/
def startsWithList : List Char → List Char → Bool
  | [], _ => true
  | _ :: _, [] => false
  | a :: xs, b :: ys => a == b && startsWithList xs ys

/-- Does `needle` occur contiguously anywhere in the list? -/
def containsSub (needle : List Char) : List Char → Bool
  | [] => startsWithList needle []
  | b :: ys => startsWithList needle (b :: ys) || containsSub needle ys

/-- Did the procedure return (rather than throw)?  `true` exactly when the
outcome is a returned envelope. -/
def returned (r : Except Unit Envelope × RunState) : Bool :=
  match r.1 with
  | .ok _ => true
  | .error _ => false

/-- A call outcome whose rejection reason (if any) lets the catch block
read `.message` without throwing — i.e. the reason is not
`undefined`/`null`. -/
def readableB : Except JsError α → Bool
  | .error .nullish => false
  | _ => true

/-- The rejection reason of a call outcome, if any. -/
def errOf : Except JsError α → Option JsError
  | .error e => some e
  | .ok _ => none

/-- The first `some` in a list of optional rejection reasons. -/
def firstSome : List (Option JsError) → Option JsError
  | [] => none
  | some e :: _ => some e
  | none :: rest => firstSome rest

/-- The first rejection among the code-review call sites, in execution
order (the `Promise.all` pair settles array-first on joint rejection). -/
def crFirstError (rPR : Except JsError PRDetails)
    (rIssue : Except JsError IssueDetails)
    (rFind : Except JsError MeetingTime) (rChannel : Except JsError Channel)
    (rMeeting : Except JsError Meeting) (rDoc : Except JsError NotionPage)
    (rMsg : Except JsError Unit) : Option JsError :=
  firstSome [errOf rPR, errOf rIssue, errOf rFind, errOf rChannel,
    errOf rMeeting, errOf rDoc, errOf rMsg]

/-- The first rejection among the kickoff call sites, in execution
order. -/
def pkFirstError (rPage : Except JsError NotionProject)
    (rRepo : Except JsError CreatedRepo) (rChannel : Except JsError Channel)
    (rFind : Except JsError MeetingTime) (rMeeting : Except JsError Meeting)
    (rMsg : Except JsError Unit) : Option JsError :=
  firstSome [errOf rPage, errOf rRepo, errOf rChannel, errOf rFind,
    errOf rMeeting, errOf rMsg]

/-- The first rejection among the incident call sites, in execution order;
the meeting/second-message sites are reached only when `escalate` holds
(severity exactly `high` or `critical`). -/
def irFirstError (escalate : Bool) (rDoc : Except JsError NotionPage)
    (rIssue : Except JsError CreatedIssue)
    (rChannel : Except JsError Channel) (rMsg1 : Except JsError Unit)
    (rMeeting : Except JsError Meeting) (rMsg2 : Except JsError Unit) :
    Option JsError :=
  firstSome ([errOf rDoc, errOf rIssue, errOf rChannel, errOf rMsg1]
    ++ (if escalate then [errOf rMeeting, errOf rMsg2] else []))

/-- The elapsed-time contract of a run outcome: whenever an envelope is
returned, its `executionTime` is the difference between the `Date.now()`
reading taken on the return path (the invocation's last reading, index
`tick - 1`) and the reading taken at invocation entry (index 0), and that
difference is non-negative.  (On an escaped throw there is no envelope,
so nothing is required.) -/
def elapsedOk (clock : Nat → Int) (r : Except Unit Envelope × RunState) :
    Prop :=
  match r.1 with
  | .ok envp =>
    envp.executionTime = clock (r.2.tick - 1) - clock 0
      ∧ 0 ≤ envp.executionTime
  | .error _ => True

/-- The trace of an incident invocation whose collaborator calls all
succeed. -/
def incidentTraceAllOk (o : Orchestrator) (penv : ProcessEnv)
    (doc : NotionPage) (issue : CreatedIssue) (channel : Channel)
    (meeting : Meeting) (clock : Nat → Int) (args : IncidentArgs)
    (uc : UserContext) (requestId : String) : List Call :=
  (handleIncidentResponse o penv (.ok doc) (.ok issue) (.ok channel)
    (.ok ()) (.ok meeting) (.ok ()) clock args uc requestId).2.trace

/-! Concrete fixtures used by witnesses and counterexamples. -/

def sampleOrch : Orchestrator := ⟨1, 2, 3, 4, 5, [], true⟩

def samplePenv : ProcessEnv := ⟨some "projdb", some "incdb"⟩

def sampleUC : UserContext := ⟨"ght", "slt", "not", "cat"⟩

/-- Pull-request details realizing the spec's AttendeeSet example:
reviewers' emails `["a@x.com", undefined]`, author email `"b@x.com"`. -/
def samplePR : PRDetails :=
  { title := "Add Login!"
    author := ⟨"Bob", some "b@x.com"⟩
    requestedReviewers := [⟨"Alice", some "a@x.com"⟩, ⟨"NoMail", none⟩]
    urls := ⟨"http://pr"⟩
    stats := ⟨3, 10, 2⟩ }

def sampleIssue : IssueDetails := ⟨"http://iss"⟩

def sampleMT : MeetingTime := ⟨1000, 2000, "soon"⟩

def sampleChannel : Channel := ⟨"C1", "chan", "http://slack"⟩

def sampleMeeting : Meeting :=
  ⟨"M1", some "http://meet", "http://cal", "summ", "dt"⟩

def samplePage : NotionPage := ⟨"N1", "http://notion"⟩

def sampleProject : NotionProject := ⟨"P1", "http://proj"⟩

def sampleRepo : CreatedRepo := ⟨"repo", "http://repo"⟩

def sampleCreatedIssue : CreatedIssue := ⟨11, "http://gi"⟩

/-- A deterministic sample clock: the k-th `Date.now()` returns `k`. -/
def sampleClock : Nat → Int := fun k => (k : Int)

/-- A code-review request with the spec example's extra attendee. -/
def sampleCRArgs : CodeReviewArgs :=
  ⟨"r/x", 7, 9, some [some "c@x.com"], none⟩

/-- An 81-character project name (81 letters `a`). -/
def longName : String := String.mk (List.replicate 81 'a')

def sampleKickoffArgs : KickoffArgs :=
  ⟨longName, ["t1@x.com"], none, "d"⟩

def sampleIncidentArgs (severity : String) : IncidentArgs :=
  ⟨"r/x", "DB down", severity, "desc", ["r1@x.com"], none⟩

/-! Helper lemmas about the catch blocks, the slug rule and decimal
numerals.  None of them is specific to a single claim. -/

theorem crCatch_trace (clock : Nat → Int) (t : Int) (e : JsError)
    (s : RunState) : (crCatch clock t e s).2.trace = s.trace := by
  cases e <;> rfl

theorem crCatch_orch (clock : Nat → Int) (t : Int) (e : JsError)
    (s : RunState) : (crCatch clock t e s).2.orch = s.orch := by
  cases e <;> rfl

theorem pkCatch_trace (clock : Nat → Int) (t : Int) (e : JsError)
    (s : RunState) : (pkCatch clock t e s).2.trace = s.trace := by
  cases e <;> rfl

theorem pkCatch_orch (clock : Nat → Int) (t : Int) (e : JsError)
    (s : RunState) : (pkCatch clock t e s).2.orch = s.orch := by
  cases e <;> rfl

theorem irCatch_trace (clock : Nat → Int) (t : Int) (e : JsError)
    (s : RunState) : (irCatch clock t e s).2.trace = s.trace := by
  cases e <;> rfl

theorem irCatch_orch (clock : Nat → Int) (t : Int) (e : JsError)
    (s : RunState) : (irCatch clock t e s).2.orch = s.orch := by
  cases e <;> rfl

/-- The character-level action of `slugify`. -/
def slugAct (c : Char) : Char :=
  if slugChar c.toLower then c.toLower else '-'

theorem slugify_data (s : String) :
    (slugify s).data = s.data.map slugAct := by
  show ((s.data.map Char.toLower).map
    fun c => if slugChar c then c else '-') = _
  rw [List.map_map]
  rfl

theorem slugChar_slugAct (c : Char) : slugChar (slugAct c) = true := by
  by_cases h : slugChar c.toLower = true
  · simp [slugAct, h]
  · simp only [slugAct, h]
    simp at h
    simp [h]
    rfl

theorem string_data_append (a b : String) :
    (a ++ b).data = a.data ++ b.data := rfl

theorem string_ext {a b : String} (h : a.data = b.data) : a = b := by
  cases a; cases b; exact congrArg String.mk h

theorem list_map_id_of {l : List Char} {f : Char → Char}
    (h : ∀ c ∈ l, f c = c) : l.map f = l := by
  induction l with
  | nil => rfl
  | cons a l ih => simp [h a (by simp), ih fun c hc => h c (by simp [hc])]

theorem slugify_append (a b : String) :
    slugify (a ++ b) = slugify a ++ slugify b := by
  apply string_ext
  simp [slugify_data, string_data_append]

theorem slugify_fixes {s : String} (h : ∀ c ∈ s.data, slugAct c = c) :
    slugify s = s := by
  apply string_ext
  rw [slugify_data]
  exact list_map_id_of h

def digitChars : List Char := ['0','1','2','3','4','5','6','7','8','9']

theorem digitChar_mem_digitChars {m : Nat} (h : m < 10) :
    Nat.digitChar m ∈ digitChars := by
  interval_cases m <;> decide

theorem toDigitsCore_subset (fuel : Nat) : ∀ (n : Nat) (ds : List Char),
    (∀ c ∈ ds, c ∈ digitChars) →
    ∀ c ∈ Nat.toDigitsCore 10 fuel n ds, c ∈ digitChars := by
  induction fuel with
  | zero => intro n ds hds c hc; exact hds c hc
  | succ fuel ih =>
    intro n ds hds c hc
    rw [Nat.toDigitsCore] at hc
    have hd : Nat.digitChar (n % 10) ∈ digitChars :=
      digitChar_mem_digitChars (Nat.mod_lt n (by decide))
    split at hc
    · rcases List.mem_cons.mp hc with rfl | hmem
      · exact hd
      · exact hds c hmem
    · refine ih (n / 10) _ ?_ c hc
      intro d hmem
      rcases List.mem_cons.mp hmem with rfl | hmem
      · exact hd
      · exact hds d hmem

theorem repr_mem_digitChars (n : Nat) :
    ∀ c ∈ (Nat.repr n).data, c ∈ digitChars := by
  intro c hc
  exact toDigitsCore_subset (n + 1) n [] (by simp) c hc

theorem digit_slugAct_fixed {c : Char} (h : c ∈ digitChars) :
    slugAct c = c := by
  fin_cases h <;> rfl

theorem digit_slugChar {c : Char} (h : c ∈ digitChars) :
    slugChar c = true := by
  fin_cases h <;> rfl

/-- The raw `pr-<digits>-` head is untouched by the slug rule, so
slugifying only the title (as the source does) agrees with slugifying the
whole `pr-<number>-<title>` string (as the spec describes). -/
theorem slugify_pr_head (n : Nat) (t : String) :
    slugify ("pr-" ++ Nat.repr n ++ "-" ++ t)
      = "pr-" ++ Nat.repr n ++ "-" ++ slugify t := by
  rw [slugify_append, slugify_append, slugify_append]
  rw [slugify_fixes (s := "pr-") (by decide)]
  rw [slugify_fixes (s := Nat.repr n)
    (fun c hc => digit_slugAct_fixed (repr_mem_digitChars n c hc))]
  rw [slugify_fixes (s := "-") (by decide)]

theorem filterTruthy_append (a b : List (Option String)) :
    filterTruthy (a ++ b) = filterTruthy a ++ filterTruthy b := by
  simp [filterTruthy, List.filterMap_append]

theorem filterTruthy_singleton_append (x : Option String)
    (l : List (Option String)) :
    filterTruthy [x] ++ filterTruthy l = filterTruthy (x :: l) := by
  rcases x with _ | s
  · simp [filterTruthy]
  · by_cases h : s = "" <;> simp [filterTruthy, h]

theorem channelSlug_chars (n : Nat) (t : String) :
    ∀ c ∈ (channelSlug n t).data, slugChar c = true := by
  intro c hc
  have hc2 : c ∈ ("pr-" ++ Nat.repr n ++ "-" ++ slugify t).data :=
    List.take_subset 80 _ hc
  rw [string_data_append, string_data_append, string_data_append] at hc2
  simp only [List.mem_append] at hc2
  rcases hc2 with ((h | h) | h) | h
  · fin_cases h <;> rfl
  · exact digit_slugChar (repr_mem_digitChars n c h)
  · fin_cases h; rfl
  · rw [slugify_data] at h
    obtain ⟨x, _, rfl⟩ := List.mem_map.mp h
    exact slugChar_slugAct x

theorem channelSlug_length (n : Nat) (t : String) :
    (channelSlug n t).length ≤ 80 :=
  List.length_take_le _ _

theorem channelSlug_ne_empty (n : Nat) (t : String) :
    channelSlug n t ≠ "" := by
  intro h
  have h2 : (channelSlug n t).data = [] := by rw [h]
  have h3 : (channelSlug n t).data
      = (("pr-" ++ Nat.repr n ++ "-" ++ slugify t).data).take 80 := rfl
  rw [h3, string_data_append, string_data_append, string_data_append] at h2
  simp [List.take_eq_nil_iff] at h2

theorem startsWithList_append (n b : List Char) :
    startsWithList n (n ++ b) = true := by
  induction n with
  | nil => rfl
  | cons x xs ih => simp [startsWithList, ih]

theorem containsSub_nil (l : List Char) : containsSub [] l = true := by
  cases l <;> rfl

theorem containsSub_append (p n b : List Char) :
    containsSub n (p ++ (n ++ b)) = true := by
  induction p with
  | nil =>
    cases n with
    | nil => exact containsSub_nil _
    | cons x xs =>
      have h := startsWithList_append (x :: xs) b
      simp only [List.nil_append, containsSub]
      rw [show ((x :: xs) ++ b) = x :: (xs ++ b) from rfl] at h
      simp [h]
  | cons y p ih =>
    simp [containsSub, ih]

/-- Any message of the shape `<action> ++ " failed: " ++ <error text>` —
the shape the spec prescribes for failure messages — contains the
substring `" failed: "`. -/
theorem spec_shape_contains (a t2 msg : String)
    (h : msg = a ++ " failed: " ++ t2) :
    containsSub " failed: ".data msg.data = true := by
  subst h
  have h2 : ((a ++ " failed: " ++ t2)).data
      = a.data ++ (" failed: ".data ++ t2.data) := by
    show (a.data ++ " failed: ".data) ++ t2.data = _
    rw [List.append_assoc]
  rw [h2]
  exact containsSub_append a.data (" failed: ".data) t2.data

/-! The claim theorems. -/

/-- **C3.**  In `scheduleCodeReview`, the attendee list handed to the
scheduling collaborator is exactly the requested reviewers' emails in
order, then the author's email, then the optional additional attendees in
order, with every falsy (missing/`undefined`/empty) entry dropped — for
every pull-request result and request, whatever the later steps do.  In
particular (second conjunct), reviewers `["a@x.com", undefined]`, author
`"b@x.com"`, extras `["c@x.com"]` yield
`["a@x.com", "b@x.com", "c@x.com"]`. -/
theorem claim3_attendee_set
    (o : Orchestrator) (penv : ProcessEnv) (pr : PRDetails)
    (issue : IssueDetails) (rFind : Except JsError MeetingTime)
    (rChannel : Except JsError Channel) (rMeeting : Except JsError Meeting)
    (rDoc : Except JsError NotionPage) (rMsg : Except JsError Unit)
    (clock : Nat → Int) (args : CodeReviewArgs) (uc : UserContext)
    (requestId : String) :
    ((scheduleCodeReview o penv (.ok pr) (.ok issue) rFind rChannel rMeeting
        rDoc rMsg clock args uc requestId).2.trace.filterMap
        Call.findAttendees?)
      = [filterTruthy (pr.requestedReviewers.map Person.email)
          ++ filterTruthy [pr.author.email]
          ++ filterTruthy (jsOrList args.additional_attendees)]
    ∧ ((scheduleCodeReview sampleOrch samplePenv (.ok samplePR)
        (.ok sampleIssue) (.ok sampleMT) (.ok sampleChannel)
        (.ok sampleMeeting) (.ok samplePage) (.ok ()) sampleClock
        sampleCRArgs sampleUC "rid").2.trace.filterMap Call.findAttendees?)
      = [["a@x.com", "b@x.com", "c@x.com"]] := by
  constructor
  · cases rFind <;> cases rChannel <;> cases rMeeting <;> cases rDoc <;>
      cases rMsg <;>
      simp [scheduleCodeReview, crCatch_trace, RunState.call, RunState.now,
        Call.findAttendees?, filterTruthy_append,
        filterTruthy_singleton_append]
  · rfl

/-- **C4.**  The channel-name slugification is pure and deterministic
(equal inputs give the identical slug), every character of the slug lies
in `[a-z0-9-]` and the slug is non-empty — so it matches `^[a-z0-9-]+$` —
its length is at most 80, and it coincides with the slug obtained by
lowercasing the whole `pr-<number>-<title>` string, replacing every
character outside the class by `-` and truncating to 80 characters, as
the spec's derivation describes. -/
theorem claim4_channel_slug (n n2 : Nat) (t t2 : String) :
    (n = n2 → t = t2 → channelSlug n t = channelSlug n2 t2)
    ∧ (∀ c ∈ (channelSlug n t).data, slugChar c = true)
    ∧ channelSlug n t ≠ ""
    ∧ (channelSlug n t).length ≤ 80
    ∧ channelSlug n t
        = jsSubstring0 80 (slugify ("pr-" ++ Nat.repr n ++ "-" ++ t)) := by
  refine ⟨?_, channelSlug_chars n t, channelSlug_ne_empty n t,
    channelSlug_length n t, ?_⟩
  · intro h1 h2
    rw [h1, h2]
  · rw [slugify_pr_head]
    rfl

/-- Witness for **C4** at PR number 3 and title `"Fix Bug!"` (slug
`pr-3-fix-bug-`). -/
theorem claim4_witness :
    channelSlug 3 "Fix Bug!" = channelSlug 3 "Fix Bug!"
    ∧ ((channelSlug 3 "Fix Bug!").data.all slugChar = true)
    ∧ channelSlug 3 "Fix Bug!" ≠ ""
    ∧ (channelSlug 3 "Fix Bug!").length ≤ 80
    ∧ channelSlug 3 "Fix Bug!"
        = jsSubstring0 80 (slugify ("pr-" ++ Nat.repr 3 ++ "-" ++ "Fix Bug!")) := by
  obtain ⟨h1, h2, h3, h4, h5⟩ := claim4_channel_slug 3 3 "Fix Bug!" "Fix Bug!"
  exact ⟨h1 rfl rfl, List.all_eq_true.mpr h2, h3, h4, h5⟩

/-- **C5, counterexample.**  The kickoff repository name is NOT truncated
to 80 characters: with an 81-character project name (81 letters `a`), the
name passed to `createRepository` is the 81-character slug itself, whose
length exceeds 80.  This refutes the claim's "truncated to 80 characters"
clause at a concrete input. -/
theorem claim5_counterexample :
    ((createProjectKickoff sampleOrch samplePenv (.ok sampleProject)
        (.error (.obj (some "boom"))) (.ok sampleChannel) (.ok sampleMT)
        (.ok sampleMeeting) (.ok ()) sampleClock sampleKickoffArgs sampleUC
        "rid").2.trace.filterMap Call.repoName?) = [slugify longName]
    ∧ ¬ (slugify longName).length ≤ 80 :=
  ⟨rfl, by decide⟩

/-- **C5, amended.**  In `createProjectKickoff` the created repository's
name is obtained from the project name by the same lowercase/replace slug
rule as the code-review channel name, but WITHOUT the 80-character
truncation: whenever the project-page step succeeds, the name passed to
`createRepository` is exactly `slugify args.project_name`, whatever the
later steps do. -/
theorem claim5_repo_name
    (o : Orchestrator) (penv : ProcessEnv) (np : NotionProject)
    (rRepo : Except JsError CreatedRepo) (rChannel : Except JsError Channel)
    (rFind : Except JsError MeetingTime) (rMeeting : Except JsError Meeting)
    (rMsg : Except JsError Unit) (clock : Nat → Int)
    (args : KickoffArgs) (uc : UserContext) (requestId : String) :
    ((createProjectKickoff o penv (.ok np) rRepo rChannel rFind rMeeting
        rMsg clock args uc requestId).2.trace.filterMap Call.repoName?)
      = [slugify args.project_name] := by
  cases rRepo <;> cases rChannel <;> cases rFind <;> cases rMeeting <;>
    cases rMsg <;>
    simp [createProjectKickoff, pkCatch_trace, RunState.call, RunState.now,
      Call.repoName?]

/-- **C1, counterexample.**  A workflow procedure CAN throw: when the
first collaborator call of `handleIncidentResponse` rejects with
`undefined` (a legal promise-rejection reason), the catch block's read of
`error.message` itself throws a `TypeError`, which escapes the procedure
to the caller.  This refutes the claim's "for every behavior of the
collaborators (including any collaborator call rejecting) … never
throws". -/
theorem claim1_counterexample :
    returned (handleIncidentResponse sampleOrch samplePenv (.error .nullish)
      (.ok sampleCreatedIssue) (.ok sampleChannel) (.ok ()) (.ok sampleMeeting)
      (.ok ()) sampleClock (sampleIncidentArgs "critical") sampleUC "rid")
      = false := rfl

/-- **C1, amended.**  Provided every rejection reason is a value whose
`.message` property can be read without throwing (any object or
primitive — i.e. not `undefined`/`null`), each of the three workflow
procedures returns a result envelope and never throws, for every request,
user context, correlation id, clock, and collaborator behavior. -/
theorem claim1_no_throw :
    (∀ (o : Orchestrator) (penv : ProcessEnv) rPR rIssue rFind rChannel
        rMeeting rDoc rMsg (clock : Nat → Int) (args : CodeReviewArgs)
        (uc : UserContext) (requestId : String),
      readableB rPR = true → readableB rIssue = true →
      readableB rFind = true → readableB rChannel = true →
      readableB rMeeting = true → readableB rDoc = true →
      readableB rMsg = true →
      returned (scheduleCodeReview o penv rPR rIssue rFind rChannel rMeeting
        rDoc rMsg clock args uc requestId) = true)
    ∧ (∀ (o : Orchestrator) (penv : ProcessEnv) rPage rRepo rChannel rFind
        rMeeting rMsg (clock : Nat → Int) (args : KickoffArgs)
        (uc : UserContext) (requestId : String),
      readableB rPage = true → readableB rRepo = true →
      readableB rChannel = true → readableB rFind = true →
      readableB rMeeting = true → readableB rMsg = true →
      returned (createProjectKickoff o penv rPage rRepo rChannel rFind
        rMeeting rMsg clock args uc requestId) = true)
    ∧ (∀ (o : Orchestrator) (penv : ProcessEnv) rDoc rIssue rChannel rMsg1
        rMeeting rMsg2 (clock : Nat → Int) (args : IncidentArgs)
        (uc : UserContext) (requestId : String),
      readableB rDoc = true → readableB rIssue = true →
      readableB rChannel = true → readableB rMsg1 = true →
      readableB rMeeting = true → readableB rMsg2 = true →
      returned (handleIncidentResponse o penv rDoc rIssue rChannel rMsg1
        rMeeting rMsg2 clock args uc requestId) = true) := by
  refine ⟨?_, ?_, ?_⟩
  · intro o penv rPR rIssue rFind rChannel rMeeting rDoc rMsg clock args uc
      requestId h1 h2 h3 h4 h5 h6 h7
    cases rPR with
    | error e => cases e with
      | nullish => simp [readableB] at h1
      | obj m => rfl
    | ok pr => cases rIssue with
      | error e => cases e with
        | nullish => simp [readableB] at h2
        | obj m => rfl
      | ok issue => cases rFind with
        | error e => cases e with
          | nullish => simp [readableB] at h3
          | obj m => rfl
        | ok mt => cases rChannel with
          | error e => cases e with
            | nullish => simp [readableB] at h4
            | obj m => rfl
          | ok ch => cases rMeeting with
            | error e => cases e with
              | nullish => simp [readableB] at h5
              | obj m => rfl
            | ok meeting => cases rDoc with
              | error e => cases e with
                | nullish => simp [readableB] at h6
                | obj m => rfl
              | ok page => cases rMsg with
                | error e => cases e with
                  | nullish => simp [readableB] at h7
                  | obj m => rfl
                | ok u => rfl
  · intro o penv rPage rRepo rChannel rFind rMeeting rMsg clock args uc
      requestId h1 h2 h3 h4 h5 h6
    cases rPage with
    | error e => cases e with
      | nullish => simp [readableB] at h1
      | obj m => rfl
    | ok np => cases rRepo with
      | error e => cases e with
        | nullish => simp [readableB] at h2
        | obj m => rfl
      | ok repo => cases rChannel with
        | error e => cases e with
          | nullish => simp [readableB] at h3
          | obj m => rfl
        | ok ch => cases rFind with
          | error e => cases e with
            | nullish => simp [readableB] at h4
            | obj m => rfl
          | ok mt => cases rMeeting with
            | error e => cases e with
              | nullish => simp [readableB] at h5
              | obj m => rfl
            | ok meeting => cases rMsg with
              | error e => cases e with
                | nullish => simp [readableB] at h6
                | obj m => rfl
              | ok u => rfl
  · intro o penv rDoc rIssue rChannel rMsg1 rMeeting rMsg2 clock args uc
      requestId h1 h2 h3 h4 h5 h6
    cases rDoc with
    | error e => cases e with
      | nullish => simp [readableB] at h1
      | obj m => rfl
    | ok doc => cases rIssue with
      | error e => cases e with
        | nullish => simp [readableB] at h2
        | obj m => rfl
      | ok issue => cases rChannel with
        | error e => cases e with
          | nullish => simp [readableB] at h3
          | obj m => rfl
        | ok ch => cases rMsg1 with
          | error e => cases e with
            | nullish => simp [readableB] at h4
            | obj m => rfl
          | ok u1 =>
            by_cases hsev :
              (args.severity == "high" || args.severity == "critical")
                = true
            · cases rMeeting with
              | error e => cases e with
                | nullish => simp [readableB] at h5
                | obj m =>
                  simp [returned, handleIncidentResponse, irCatch, irSuccess,
                    RunState.call, RunState.now, hsev, jsMessage]
              | ok meeting => cases rMsg2 with
                | error e => cases e with
                  | nullish => simp [readableB] at h6
                  | obj m =>
                    simp [returned, handleIncidentResponse, irCatch,
                      irSuccess, RunState.call, RunState.now, hsev,
                      jsMessage]
                | ok u2 =>
                  simp [returned, handleIncidentResponse, irCatch, irSuccess,
                    RunState.call, RunState.now, hsev, jsMessage]
            · simp [returned, handleIncidentResponse, irCatch, irSuccess,
                RunState.call, RunState.now, hsev, jsMessage]

/-- Witness for **C1** at a concrete rejection carrying a message
object. -/
theorem claim1_witness :
    returned (scheduleCodeReview sampleOrch samplePenv
      (.error (.obj (some "boom"))) (.ok sampleIssue) (.ok sampleMT)
      (.ok sampleChannel) (.ok sampleMeeting) (.ok samplePage) (.ok ())
      sampleClock sampleCRArgs sampleUC "rid") = true :=
  claim1_no_throw.1 sampleOrch samplePenv _ _ _ _ _ _ _ sampleClock
    sampleCRArgs sampleUC "rid" rfl rfl rfl rfl rfl rfl rfl

/-- **C2, counterexample.**  When the scheduling step rejects with message
`"no slot available"`, the workflow returns the failure envelope whose
message is `"Failed to schedule code review: no slot available"` — which
does not contain the substring `" failed: "` at all, so it is not of the
claimed form `"<workflow action> failed: " ++ errorText` (see
`spec_shape_contains`: every message of that form contains
`" failed: "`). -/
theorem claim2_counterexample :
    ((scheduleCodeReview sampleOrch samplePenv (.ok samplePR)
        (.ok sampleIssue) (.error (.obj (some "no slot available")))
        (.ok sampleChannel) (.ok sampleMeeting) (.ok samplePage) (.ok ())
        sampleClock sampleCRArgs sampleUC "rid").1
      = .ok { success := false
              message := "Failed to schedule code review: no slot available"
              executionTime := 3
              details := none })
    ∧ containsSub " failed: ".data
        "Failed to schedule code review: no slot available".data = false :=
  ⟨rfl, by decide⟩

/-- **C2, amended.**  Whenever any collaborator call inside a workflow
rejects (with a reason whose `.message` is readable, yielding `m`), the
workflow returns an envelope with `success = false`, a message of the form
`"Failed to <workflow action>: "` followed by the failing step's error
text `m` rendered verbatim (the fixed heads are
`"Failed to schedule code review: "`, `"Failed to create project: "`,
`"Failed to initiate incident response: "`), an elapsed value, and no
`details` key. -/
theorem claim2_failure_envelope :
    (∀ (o : Orchestrator) (penv : ProcessEnv) rPR rIssue rFind rChannel
        rMeeting rDoc rMsg (clock : Nat → Int) (args : CodeReviewArgs)
        (uc : UserContext) (requestId : String) (e : JsError)
        (m : Option String),
      crFirstError rPR rIssue rFind rChannel rMeeting rDoc rMsg = some e →
      jsMessage e = .ok m →
      ∃ t, (scheduleCodeReview o penv rPR rIssue rFind rChannel rMeeting
        rDoc rMsg clock args uc requestId).1
        = .ok { success := false
                message := "Failed to schedule code review: " ++ jsShow m
                executionTime := t
                details := none })
    ∧ (∀ (o : Orchestrator) (penv : ProcessEnv) rPage rRepo rChannel rFind
        rMeeting rMsg (clock : Nat → Int) (args : KickoffArgs)
        (uc : UserContext) (requestId : String) (e : JsError)
        (m : Option String),
      pkFirstError rPage rRepo rChannel rFind rMeeting rMsg = some e →
      jsMessage e = .ok m →
      ∃ t, (createProjectKickoff o penv rPage rRepo rChannel rFind rMeeting
        rMsg clock args uc requestId).1
        = .ok { success := false
                message := "Failed to create project: " ++ jsShow m
                executionTime := t
                details := none })
    ∧ (∀ (o : Orchestrator) (penv : ProcessEnv) rDoc rIssue rChannel rMsg1
        rMeeting rMsg2 (clock : Nat → Int) (args : IncidentArgs)
        (uc : UserContext) (requestId : String) (e : JsError)
        (m : Option String),
      irFirstError (args.severity == "high" || args.severity == "critical")
        rDoc rIssue rChannel rMsg1 rMeeting rMsg2 = some e →
      jsMessage e = .ok m →
      ∃ t, (handleIncidentResponse o penv rDoc rIssue rChannel rMsg1
        rMeeting rMsg2 clock args uc requestId).1
        = .ok { success := false
                message :=
                  "Failed to initiate incident response: " ++ jsShow m
                executionTime := t
                details := none }) := by
  refine ⟨?_, ?_, ?_⟩
  · intro o penv rPR rIssue rFind rChannel rMeeting rDoc rMsg clock args uc
      requestId e m h1 h2
    cases rPR with
    | error e1 =>
      simp [crFirstError, firstSome, errOf] at h1
      subst h1
      cases e1 with
      | nullish => simp [jsMessage] at h2
      | obj m1 =>
        simp [jsMessage] at h2
        subst h2
        exact ⟨_, rfl⟩
    | ok pr => cases rIssue with
      | error e1 =>
        simp [crFirstError, firstSome, errOf] at h1
        subst h1
        cases e1 with
        | nullish => simp [jsMessage] at h2
        | obj m1 =>
          simp [jsMessage] at h2
          subst h2
          exact ⟨_, rfl⟩
      | ok issue => cases rFind with
        | error e1 =>
          simp [crFirstError, firstSome, errOf] at h1
          subst h1
          cases e1 with
          | nullish => simp [jsMessage] at h2
          | obj m1 =>
            simp [jsMessage] at h2
            subst h2
            exact ⟨_, rfl⟩
        | ok mt => cases rChannel with
          | error e1 =>
            simp [crFirstError, firstSome, errOf] at h1
            subst h1
            cases e1 with
            | nullish => simp [jsMessage] at h2
            | obj m1 =>
              simp [jsMessage] at h2
              subst h2
              exact ⟨_, rfl⟩
          | ok ch => cases rMeeting with
            | error e1 =>
              simp [crFirstError, firstSome, errOf] at h1
              subst h1
              cases e1 with
              | nullish => simp [jsMessage] at h2
              | obj m1 =>
                simp [jsMessage] at h2
                subst h2
                exact ⟨_, rfl⟩
            | ok meeting => cases rDoc with
              | error e1 =>
                simp [crFirstError, firstSome, errOf] at h1
                subst h1
                cases e1 with
                | nullish => simp [jsMessage] at h2
                | obj m1 =>
                  simp [jsMessage] at h2
                  subst h2
                  exact ⟨_, rfl⟩
              | ok page => cases rMsg with
                | error e1 =>
                  simp [crFirstError, firstSome, errOf] at h1
                  subst h1
                  cases e1 with
                  | nullish => simp [jsMessage] at h2
                  | obj m1 =>
                    simp [jsMessage] at h2
                    subst h2
                    exact ⟨_, rfl⟩
                | ok u => simp [crFirstError, firstSome, errOf] at h1
  · intro o penv rPage rRepo rChannel rFind rMeeting rMsg clock args uc
      requestId e m h1 h2
    cases rPage with
    | error e1 =>
      simp [pkFirstError, firstSome, errOf] at h1
      subst h1
      cases e1 with
      | nullish => simp [jsMessage] at h2
      | obj m1 =>
        simp [jsMessage] at h2
        subst h2
        exact ⟨_, rfl⟩
    | ok np => cases rRepo with
      | error e1 =>
        simp [pkFirstError, firstSome, errOf] at h1
        subst h1
        cases e1 with
        | nullish => simp [jsMessage] at h2
        | obj m1 =>
          simp [jsMessage] at h2
          subst h2
          exact ⟨_, rfl⟩
      | ok repo => cases rChannel with
        | error e1 =>
          simp [pkFirstError, firstSome, errOf] at h1
          subst h1
          cases e1 with
          | nullish => simp [jsMessage] at h2
          | obj m1 =>
            simp [jsMessage] at h2
            subst h2
            exact ⟨_, rfl⟩
        | ok ch => cases rFind with
          | error e1 =>
            simp [pkFirstError, firstSome, errOf] at h1
            subst h1
            cases e1 with
            | nullish => simp [jsMessage] at h2
            | obj m1 =>
              simp [jsMessage] at h2
              subst h2
              exact ⟨_, rfl⟩
          | ok mt => cases rMeeting with
            | error e1 =>
              simp [pkFirstError, firstSome, errOf] at h1
              subst h1
              cases e1 with
              | nullish => simp [jsMessage] at h2
              | obj m1 =>
                simp [jsMessage] at h2
                subst h2
                exact ⟨_, rfl⟩
            | ok meeting => cases rMsg with
              | error e1 =>
                simp [pkFirstError, firstSome, errOf] at h1
                subst h1
                cases e1 with
                | nullish => simp [jsMessage] at h2
                | obj m1 =>
                  simp [jsMessage] at h2
                  subst h2
                  exact ⟨_, rfl⟩
              | ok u => simp [pkFirstError, firstSome, errOf] at h1
  · intro o penv rDoc rIssue rChannel rMsg1 rMeeting rMsg2 clock args uc
      requestId e m h1 h2
    cases rDoc with
    | error e1 =>
      simp [irFirstError, firstSome, errOf] at h1
      subst h1
      cases e1 with
      | nullish => simp [jsMessage] at h2
      | obj m1 =>
        simp [jsMessage] at h2
        subst h2
        exact ⟨_, rfl⟩
    | ok doc => cases rIssue with
      | error e1 =>
        simp [irFirstError, firstSome, errOf] at h1
        subst h1
        cases e1 with
        | nullish => simp [jsMessage] at h2
        | obj m1 =>
          simp [jsMessage] at h2
          subst h2
          exact ⟨_, rfl⟩
      | ok issue => cases rChannel with
        | error e1 =>
          simp [irFirstError, firstSome, errOf] at h1
          subst h1
          cases e1 with
          | nullish => simp [jsMessage] at h2
          | obj m1 =>
            simp [jsMessage] at h2
            subst h2
            exact ⟨_, rfl⟩
        | ok ch => cases rMsg1 with
          | error e1 =>
            simp [irFirstError, firstSome, errOf] at h1
            subst h1
            cases e1 with
            | nullish => simp [jsMessage] at h2
            | obj m1 =>
              simp [jsMessage] at h2
              subst h2
              exact ⟨_, rfl⟩
          | ok u1 =>
            by_cases hsev :
              (args.severity == "high" || args.severity == "critical")
                = true
            · rw [hsev] at h1
              cases rMeeting with
              | error e1 =>
                simp [irFirstError, firstSome, errOf] at h1
                subst h1
                cases e1 with
                | nullish => simp [jsMessage] at h2
                | obj m1 =>
                  simp [jsMessage] at h2
                  subst h2
                  refine ⟨clock 6 - clock 0, ?_⟩
                  simp [handleIncidentResponse, irCatch, jsMessage, jsShow,
                    RunState.call, RunState.now, hsev]
              | ok meeting => cases rMsg2 with
                | error e1 =>
                  simp [irFirstError, firstSome, errOf] at h1
                  subst h1
                  cases e1 with
                  | nullish => simp [jsMessage] at h2
                  | obj m1 =>
                    simp [jsMessage] at h2
                    subst h2
                    refine ⟨clock 6 - clock 0, ?_⟩
                    simp [handleIncidentResponse, irCatch, jsMessage, jsShow,
                      RunState.call, RunState.now, hsev]
                | ok u2 => simp [irFirstError, firstSome, errOf] at h1
            · have hsev2 : (args.severity == "high"
                  || args.severity == "critical") = false := by
                simpa using hsev
              rw [hsev2] at h1
              simp [irFirstError, firstSome, errOf] at h1

/-- Witness for **C2**: the pull-request fetch rejects with message
`"boom"`. -/
theorem claim2_witness :
    ∃ t, (scheduleCodeReview sampleOrch samplePenv
      (.error (.obj (some "boom"))) (.ok sampleIssue) (.ok sampleMT)
      (.ok sampleChannel) (.ok sampleMeeting) (.ok samplePage) (.ok ())
      sampleClock sampleCRArgs sampleUC "rid").1
      = .ok { success := false
              message := "Failed to schedule code review: " ++ jsShow (some "boom")
              executionTime := t
              details := none } :=
  claim2_failure_envelope.1 sampleOrch samplePenv _ _ _ _ _ _ _ sampleClock
    sampleCRArgs sampleUC "rid" (.obj (some "boom")) (some "boom") rfl rfl

/-- **C10.**  No workflow invocation mutates orchestrator state: for every
collaborator behavior (success or failure on any step), every request,
user context, correlation id and clock, the orchestrator fields (`github`,
`slack`, `notion`, `calendar`, `automation`, `config`, `isInitialized`)
after any of the three workflow procedures are exactly the fields before;
the user context is only read and threaded into collaborator calls (the
call trace records the tokens), never stored. -/
theorem claim10_frame :
    (∀ (o : Orchestrator) (penv : ProcessEnv) rPR rIssue rFind rChannel
        rMeeting rDoc rMsg (clock : Nat → Int) (args : CodeReviewArgs)
        (uc : UserContext) (requestId : String),
      (scheduleCodeReview o penv rPR rIssue rFind rChannel rMeeting rDoc
        rMsg clock args uc requestId).2.orch = o)
    ∧ (∀ (o : Orchestrator) (penv : ProcessEnv) rPage rRepo rChannel rFind
        rMeeting rMsg (clock : Nat → Int) (args : KickoffArgs)
        (uc : UserContext) (requestId : String),
      (createProjectKickoff o penv rPage rRepo rChannel rFind rMeeting rMsg
        clock args uc requestId).2.orch = o)
    ∧ (∀ (o : Orchestrator) (penv : ProcessEnv) rDoc rIssue rChannel rMsg1
        rMeeting rMsg2 (clock : Nat → Int) (args : IncidentArgs)
        (uc : UserContext) (requestId : String),
      (handleIncidentResponse o penv rDoc rIssue rChannel rMsg1 rMeeting
        rMsg2 clock args uc requestId).2.orch = o) := by
  refine ⟨?_, ?_, ?_⟩
  · intro o penv rPR rIssue rFind rChannel rMeeting rDoc rMsg clock args uc
      requestId
    cases rPR <;> cases rIssue <;> cases rFind <;> cases rChannel <;>
      cases rMeeting <;> cases rDoc <;> cases rMsg <;>
      simp [scheduleCodeReview, crCatch_orch, RunState.call, RunState.now]
  · intro o penv rPage rRepo rChannel rFind rMeeting rMsg clock args uc
      requestId
    cases rPage <;> cases rRepo <;> cases rChannel <;> cases rFind <;>
      cases rMeeting <;> cases rMsg <;>
      simp [createProjectKickoff, pkCatch_orch, RunState.call, RunState.now]
  · intro o penv rDoc rIssue rChannel rMsg1 rMeeting rMsg2 clock args uc
      requestId
    by_cases hsev :
      (args.severity == "high" || args.severity == "critical") = true <;>
      cases rDoc <;> cases rIssue <;> cases rChannel <;> cases rMsg1 <;>
      cases rMeeting <;> cases rMsg2 <;>
      simp [handleIncidentResponse, irCatch_orch, irSuccess, RunState.call,
        RunState.now, hsev]

/-- **C6.**  In `handleIncidentResponse` (all collaborator calls
succeeding), exactly when the severity is exactly `"high"` or exactly
`"critical"`, one additional meeting is created — start `= now` (the
escalation branch's first `Date.now()` reading, index 3), end `= now +
30` minutes, attendees = the responders — and one additional "join now"
notification is sent: one channel, two messages, one meeting.  For every
other severity the escalation step is entirely skipped: exactly one
channel is created, exactly one alert notification is sent, and zero
meetings are created. -/
theorem claim6_escalation
    (o : Orchestrator) (penv : ProcessEnv) (doc : NotionPage)
    (issue : CreatedIssue) (channel : Channel) (meeting : Meeting)
    (clock : Nat → Int) (args : IncidentArgs) (uc : UserContext)
    (requestId : String) :
    (args.severity = "high" ∨ args.severity = "critical" →
      ((incidentTraceAllOk o penv doc issue channel meeting clock args uc
          requestId).countP Call.isCreateReviewChannel = 1
        ∧ (incidentTraceAllOk o penv doc issue channel meeting clock args uc
            requestId).countP Call.isSendMessage = 2
        ∧ (incidentTraceAllOk o penv doc issue channel meeting clock args uc
            requestId).countP Call.isCreateMeeting = 1
        ∧ ((incidentTraceAllOk o penv doc issue channel meeting clock args
            uc requestId).filterMap Call.meetingSpec?).map
            (fun sp => (sp.startTime, sp.endTime, sp.attendees))
          = [(clock 3, clock 4 + 30 * 60 * 1000, args.responders)]))
    ∧ (args.severity ≠ "high" ∧ args.severity ≠ "critical" →
      ((incidentTraceAllOk o penv doc issue channel meeting clock args uc
          requestId).countP Call.isCreateReviewChannel = 1
        ∧ (incidentTraceAllOk o penv doc issue channel meeting clock args uc
            requestId).countP Call.isSendMessage = 1
        ∧ (incidentTraceAllOk o penv doc issue channel meeting clock args uc
            requestId).countP Call.isCreateMeeting = 0)) := by
  constructor
  · intro hsev
    have hB : (args.severity == "high" || args.severity == "critical")
        = true := by
      rcases hsev with h | h <;> simp [h]
    simp [incidentTraceAllOk, handleIncidentResponse, irSuccess,
      RunState.call, RunState.now, hB, Call.isCreateReviewChannel,
      Call.isSendMessage, Call.isCreateMeeting, Call.meetingSpec?,
      List.countP_cons]
  · intro h
    obtain ⟨h1, h2⟩ := h
    have hB : (args.severity == "high" || args.severity == "critical")
        = false := by
      simp [h1, h2]
    simp [incidentTraceAllOk, handleIncidentResponse, irSuccess,
      RunState.call, RunState.now, hB, Call.isCreateReviewChannel,
      Call.isSendMessage, Call.isCreateMeeting, List.countP_cons]

/-- Witness for **C6**: a `"critical"` incident yields one channel, two
messages and one meeting with the responders; a `"low"` incident yields
one channel, one message and zero meetings. -/
theorem claim6_witness :
    ((incidentTraceAllOk sampleOrch samplePenv samplePage sampleCreatedIssue
        sampleChannel sampleMeeting sampleClock
        (sampleIncidentArgs "critical") sampleUC "rid").countP
        Call.isCreateReviewChannel = 1
      ∧ (incidentTraceAllOk sampleOrch samplePenv samplePage
          sampleCreatedIssue sampleChannel sampleMeeting sampleClock
          (sampleIncidentArgs "critical") sampleUC "rid").countP
          Call.isSendMessage = 2
      ∧ (incidentTraceAllOk sampleOrch samplePenv samplePage
          sampleCreatedIssue sampleChannel sampleMeeting sampleClock
          (sampleIncidentArgs "critical") sampleUC "rid").countP
          Call.isCreateMeeting = 1
      ∧ ((incidentTraceAllOk sampleOrch samplePenv samplePage
          sampleCreatedIssue sampleChannel sampleMeeting sampleClock
          (sampleIncidentArgs "critical") sampleUC "rid").filterMap
          Call.meetingSpec?).map
          (fun sp => (sp.startTime, sp.endTime, sp.attendees))
        = [(sampleClock 3, sampleClock 4 + 30 * 60 * 1000, ["r1@x.com"])])
    ∧ ((incidentTraceAllOk sampleOrch samplePenv samplePage
        sampleCreatedIssue sampleChannel sampleMeeting sampleClock
        (sampleIncidentArgs "low") sampleUC "rid").countP
        Call.isCreateReviewChannel = 1
      ∧ (incidentTraceAllOk sampleOrch samplePenv samplePage
          sampleCreatedIssue sampleChannel sampleMeeting sampleClock
          (sampleIncidentArgs "low") sampleUC "rid").countP
          Call.isSendMessage = 1
      ∧ (incidentTraceAllOk sampleOrch samplePenv samplePage
          sampleCreatedIssue sampleChannel sampleMeeting sampleClock
          (sampleIncidentArgs "low") sampleUC "rid").countP
          Call.isCreateMeeting = 0) :=
  ⟨(claim6_escalation sampleOrch samplePenv samplePage sampleCreatedIssue
      sampleChannel sampleMeeting sampleClock (sampleIncidentArgs "critical")
      sampleUC "rid").1 (Or.inr rfl),
   (claim6_escalation sampleOrch samplePenv samplePage sampleCreatedIssue
      sampleChannel sampleMeeting sampleClock (sampleIncidentArgs "low")
      sampleUC "rid").2 ⟨by decide, by decide⟩⟩

/-- **C7.**  For each of the three workflows, if every collaborator call
succeeds, an invocation returns an envelope with `success = true` and a
`details` map containing an entry for every artifact type that workflow
creates (code review: channel, meeting, document plus original
identifiers; kickoff: document, repository, channel, meeting; incident:
document, issue, channel), correctly wired to the created artifacts. -/
theorem claim7_success_details :
    (∀ (o : Orchestrator) (penv : ProcessEnv) (pr : PRDetails)
        (issue : IssueDetails) (mt : MeetingTime) (channel : Channel)
        (meeting : Meeting) (page : NotionPage) (clock : Nat → Int)
        (args : CodeReviewArgs) (uc : UserContext) (requestId : String),
      ∃ envp s, scheduleCodeReview o penv (.ok pr) (.ok issue) (.ok mt)
          (.ok channel) (.ok meeting) (.ok page) (.ok ()) clock args uc
          requestId = (.ok envp, s)
        ∧ envp.success = true
        ∧ ∃ d, envp.details = some (.codeReview d)
          ∧ d.slack_channel = "#" ++ channel.name
          ∧ d.slack_url = channel.webUrl
          ∧ d.meeting.url = jsOrStr meeting.hangoutLink meeting.htmlLink
          ∧ d.notion.url = page.url
          ∧ d.github_pr = pr.urls.html
          ∧ d.github_issue = issue.html_url)
    ∧ (∀ (o : Orchestrator) (penv : ProcessEnv) (np : NotionProject)
        (repo : CreatedRepo) (channel : Channel) (mt : MeetingTime)
        (meeting : Meeting) (clock : Nat → Int) (args : KickoffArgs)
        (uc : UserContext) (requestId : String),
      ∃ envp s, createProjectKickoff o penv (.ok np) (.ok repo)
          (.ok channel) (.ok mt) (.ok meeting) (.ok ()) clock args uc
          requestId = (.ok envp, s)
        ∧ envp.success = true
        ∧ ∃ d, envp.details = some (.kickoff d)
          ∧ d.notionPageId = np.projectPageId
          ∧ d.notionUrl = np.projectPageUrl
          ∧ d.githubName = repo.name
          ∧ d.githubUrl = repo.html_url
          ∧ d.slackChannel = channel.name
          ∧ d.slackUrl = channel.webUrl
          ∧ d.meetingId = meeting.id
          ∧ d.meetingUrl = meeting.htmlLink)
    ∧ (∀ (o : Orchestrator) (penv : ProcessEnv) (doc : NotionPage)
        (issue : CreatedIssue) (channel : Channel) (meeting : Meeting)
        (clock : Nat → Int) (args : IncidentArgs) (uc : UserContext)
        (requestId : String),
      ∃ envp s, handleIncidentResponse o penv (.ok doc) (.ok issue)
          (.ok channel) (.ok ()) (.ok meeting) (.ok ()) clock args uc
          requestId = (.ok envp, s)
        ∧ envp.success = true
        ∧ ∃ d, envp.details = some (.incident d)
          ∧ d.notionDocumentId = doc.id
          ∧ d.notionUrl = doc.url
          ∧ d.githubIssueNumber = issue.number
          ∧ d.githubIssueUrl = issue.html_url
          ∧ d.slackChannel = channel.name
          ∧ d.slackUrl = channel.webUrl) := by
  refine ⟨?_, ?_, ?_⟩
  · intro o penv pr issue mt channel meeting page clock args uc requestId
    exact ⟨_, _, rfl, rfl, _, rfl, rfl, rfl, rfl, rfl, rfl, rfl⟩
  · intro o penv np repo channel mt meeting clock args uc requestId
    exact ⟨_, _, rfl, rfl, _, rfl, rfl, rfl, rfl, rfl, rfl, rfl, rfl, rfl⟩
  · intro o penv doc issue channel meeting clock args uc requestId
    by_cases hsev :
      (args.severity == "high" || args.severity == "critical") = true
    · simp only [handleIncidentResponse, RunState.call, RunState.now, hsev,
        irSuccess, if_true]
      exact ⟨_, _, rfl, rfl, _, rfl, rfl, rfl, rfl, rfl, rfl, rfl⟩
    · simp only [handleIncidentResponse, RunState.call, RunState.now,
        irSuccess]
      rw [if_neg (by simpa using hsev)]
      exact ⟨_, _, rfl, rfl, _, rfl, rfl, rfl, rfl, rfl, rfl, rfl⟩

/-- **C8.**  In every workflow procedure the elapsed time is captured at
invocation entry (`Date.now()` reading index 0) and recomputed at each
return path (the invocation's final reading): whenever an envelope is
returned — on the success path or the failure path — its `executionTime`
equals the final reading minus the entry reading, and is non-negative
under a monotone (wall-) clock. -/
theorem claim8_elapsed :
    (∀ (o : Orchestrator) (penv : ProcessEnv) rPR rIssue rFind rChannel
        rMeeting rDoc rMsg (clock : Nat → Int) (args : CodeReviewArgs)
        (uc : UserContext) (requestId : String),
      (∀ i j : Nat, i ≤ j → clock i ≤ clock j) →
      elapsedOk clock (scheduleCodeReview o penv rPR rIssue rFind rChannel
        rMeeting rDoc rMsg clock args uc requestId))
    ∧ (∀ (o : Orchestrator) (penv : ProcessEnv) rPage rRepo rChannel rFind
        rMeeting rMsg (clock : Nat → Int) (args : KickoffArgs)
        (uc : UserContext) (requestId : String),
      (∀ i j : Nat, i ≤ j → clock i ≤ clock j) →
      elapsedOk clock (createProjectKickoff o penv rPage rRepo rChannel
        rFind rMeeting rMsg clock args uc requestId))
    ∧ (∀ (o : Orchestrator) (penv : ProcessEnv) rDoc rIssue rChannel rMsg1
        rMeeting rMsg2 (clock : Nat → Int) (args : IncidentArgs)
        (uc : UserContext) (requestId : String),
      (∀ i j : Nat, i ≤ j → clock i ≤ clock j) →
      elapsedOk clock (handleIncidentResponse o penv rDoc rIssue rChannel
        rMsg1 rMeeting rMsg2 clock args uc requestId)) := by
  refine ⟨?_, ?_, ?_⟩
  · intro o penv rPR rIssue rFind rChannel rMeeting rDoc rMsg clock args uc
      requestId hMono
    cases rPR with
    | error e => cases e with
      | nullish => trivial
      | obj m => exact ⟨rfl, sub_nonneg.mpr (hMono 0 _ (Nat.zero_le _))⟩
    | ok pr => cases rIssue with
      | error e => cases e with
        | nullish => trivial
        | obj m => exact ⟨rfl, sub_nonneg.mpr (hMono 0 _ (Nat.zero_le _))⟩
      | ok issue => cases rFind with
        | error e => cases e with
          | nullish => trivial
          | obj m => exact ⟨rfl, sub_nonneg.mpr (hMono 0 _ (Nat.zero_le _))⟩
        | ok mt => cases rChannel with
          | error e => cases e with
            | nullish => trivial
            | obj m =>
              exact ⟨rfl, sub_nonneg.mpr (hMono 0 _ (Nat.zero_le _))⟩
          | ok ch => cases rMeeting with
            | error e => cases e with
              | nullish => trivial
              | obj m =>
                exact ⟨rfl, sub_nonneg.mpr (hMono 0 _ (Nat.zero_le _))⟩
            | ok meeting => cases rDoc with
              | error e => cases e with
                | nullish => trivial
                | obj m =>
                  exact ⟨rfl, sub_nonneg.mpr (hMono 0 _ (Nat.zero_le _))⟩
              | ok page => cases rMsg with
                | error e => cases e with
                  | nullish => trivial
                  | obj m =>
                    exact ⟨rfl, sub_nonneg.mpr (hMono 0 _ (Nat.zero_le _))⟩
                | ok u =>
                  exact ⟨rfl, sub_nonneg.mpr (hMono 0 _ (Nat.zero_le _))⟩
  · intro o penv rPage rRepo rChannel rFind rMeeting rMsg clock args uc
      requestId hMono
    cases rPage with
    | error e => cases e with
      | nullish => trivial
      | obj m => exact ⟨rfl, sub_nonneg.mpr (hMono 0 _ (Nat.zero_le _))⟩
    | ok np => cases rRepo with
      | error e => cases e with
        | nullish => trivial
        | obj m => exact ⟨rfl, sub_nonneg.mpr (hMono 0 _ (Nat.zero_le _))⟩
      | ok repo => cases rChannel with
        | error e => cases e with
          | nullish => trivial
          | obj m => exact ⟨rfl, sub_nonneg.mpr (hMono 0 _ (Nat.zero_le _))⟩
        | ok ch => cases rFind with
          | error e => cases e with
            | nullish => trivial
            | obj m =>
              exact ⟨rfl, sub_nonneg.mpr (hMono 0 _ (Nat.zero_le _))⟩
          | ok mt => cases rMeeting with
            | error e => cases e with
              | nullish => trivial
              | obj m =>
                exact ⟨rfl, sub_nonneg.mpr (hMono 0 _ (Nat.zero_le _))⟩
            | ok meeting => cases rMsg with
              | error e => cases e with
                | nullish => trivial
                | obj m =>
                  exact ⟨rfl, sub_nonneg.mpr (hMono 0 _ (Nat.zero_le _))⟩
              | ok u =>
                exact ⟨rfl, sub_nonneg.mpr (hMono 0 _ (Nat.zero_le _))⟩
  · intro o penv rDoc rIssue rChannel rMsg1 rMeeting rMsg2 clock args uc
      requestId hMono
    cases rDoc with
    | error e => cases e with
      | nullish => trivial
      | obj m => exact ⟨rfl, sub_nonneg.mpr (hMono 0 _ (Nat.zero_le _))⟩
    | ok doc => cases rIssue with
      | error e => cases e with
        | nullish => trivial
        | obj m => exact ⟨rfl, sub_nonneg.mpr (hMono 0 _ (Nat.zero_le _))⟩
      | ok issue => cases rChannel with
        | error e => cases e with
          | nullish => trivial
          | obj m => exact ⟨rfl, sub_nonneg.mpr (hMono 0 _ (Nat.zero_le _))⟩
        | ok ch => cases rMsg1 with
          | error e => cases e with
            | nullish => trivial
            | obj m =>
              exact ⟨rfl, sub_nonneg.mpr (hMono 0 _ (Nat.zero_le _))⟩
          | ok u1 =>
            by_cases hsev :
              (args.severity == "high" || args.severity == "critical")
                = true
            · cases rMeeting with
              | error e => cases e with
                | nullish =>
                  simp only [elapsedOk, handleIncidentResponse,
                    RunState.call, RunState.now, hsev, if_true, irCatch,
                    jsMessage]
                | obj m =>
                  simp only [elapsedOk, handleIncidentResponse,
                    RunState.call, RunState.now, hsev, if_true, irCatch,
                    jsMessage]
                  exact ⟨by simp, sub_nonneg.mpr (hMono 0 6 (by omega))⟩
              | ok meeting => cases rMsg2 with
                | error e => cases e with
                  | nullish =>
                    simp only [elapsedOk, handleIncidentResponse,
                      RunState.call, RunState.now, hsev, if_true, irCatch,
                      jsMessage]
                  | obj m =>
                    simp only [elapsedOk, handleIncidentResponse,
                      RunState.call, RunState.now, hsev, if_true, irCatch,
                      jsMessage]
                    exact ⟨by simp, sub_nonneg.mpr (hMono 0 6 (by omega))⟩
                | ok u2 =>
                  simp only [elapsedOk, handleIncidentResponse,
                    RunState.call, RunState.now, hsev, if_true, irSuccess]
                  exact ⟨by simp, sub_nonneg.mpr (hMono 0 6 (by omega))⟩
            · simp only [elapsedOk, handleIncidentResponse, RunState.call,
                RunState.now, irSuccess]
              rw [if_neg (by simpa using hsev)]
              exact ⟨rfl, sub_nonneg.mpr (hMono 0 3 (by omega))⟩

/-- Witness for **C8**: an all-success code-review run under the identity
clock returns an envelope satisfying the elapsed-time contract. -/
theorem claim8_witness :
    elapsedOk sampleClock (scheduleCodeReview sampleOrch samplePenv
      (.ok samplePR) (.ok sampleIssue) (.ok sampleMT) (.ok sampleChannel)
      (.ok sampleMeeting) (.ok samplePage) (.ok ()) sampleClock sampleCRArgs
      sampleUC "rid") :=
  claim8_elapsed.1 sampleOrch samplePenv _ _ _ _ _ _ _ sampleClock
    sampleCRArgs sampleUC "rid"
    (fun i j h => by simpa [sampleClock] using Int.ofNat_le.mpr h)

end WG
